import Mathlib

/-!
Verification of the tracking-and-decision core of the dual-layer toll system.

The development shallowly embeds, directly from the Python source:
  * src/license_plate/plate_tracker.py   (class PlateTracker)
  * src/license_plate/plate_recognizer.py (method verify_authorized_plate)
  * src/integration/toll_system.py       (methods make_toll_decision and
    update_session_state of class DualLayerTollSystem)

Python dictionaries are modelled as insertion-ordered association lists over
Nat keys; dictionary assignment updates an existing key in place and appends
a fresh key at the end, exactly as CPython does. Machine floats appearing in
the tracker (Euclidean distances) are modelled exactly via squared integer
distances: every comparison the source performs on distances (min, argmin,
argsort, the max_distance cutoff) is monotone under squaring, so the integer
model coincides with the float computation except for float rounding at
astronomically large coordinates.
-/

namespace TollCore

/-- Lookup in an insertion-ordered association list (Python dict read). -/
def alistGet {α : Type} (l : List (Nat × α)) (k : Nat) : Option α :=
  (l.find? (fun p => p.1 == k)).map Prod.snd

/-- Assignment in an insertion-ordered association list (Python dict write):
an existing key is updated in place, a fresh key is appended at the end. -/
def alistSet {α : Type} (l : List (Nat × α)) (k : Nat) (v : α) : List (Nat × α) :=
  if l.any (fun p => p.1 == k) then
    l.map (fun p => if p.1 == k then (k, v) else p)
  else
    l ++ [(k, v)]

/-- Deletion from an association list (Python del dict entry). -/
def alistErase {α : Type} (l : List (Nat × α)) (k : Nat) : List (Nat × α) :=
  l.filter (fun p => p.1 != k)

/-- Append to a bounded deque of capacity cap: collections.deque(maxlen=cap)
drops the oldest element when full. -/
def dequeAppend {α : Type} (cap : Nat) (l : List α) (a : α) : List α :=
  let l' := l ++ [a]
  l'.drop (l'.length - cap)

/-! ## Authorization store and verify_authorized_plate

From src/license_plate/plate_recognizer.py. The backing allow-list file is
abstracted as its observable state: absent, present but unreadable (the open
or read raises, caught by the except clause), or readable with its lines. -/

/-- Python str.upper: uppercase each character (plate strings are ASCII,
where per-character uppercasing agrees with the Python definition). -/
def pyUpper (s : String) : String :=
  ⟨s.data.map Char.toUpper⟩

/-- Python str.strip with no argument: drop leading and trailing
whitespace. -/
def pyStrip (s : String) : String :=
  ⟨((s.data.dropWhile Char.isWhitespace).reverse.dropWhile Char.isWhitespace).reverse⟩

/-- Observable state of the authorized-plates store backing
verify_authorized_plate. -/
inductive AuthStore : Type
  | missing : AuthStore
  | unreadable : AuthStore
  | readable : List String → AuthStore
  deriving DecidableEq, Repr

/-- LicensePlateRecognizer.verify_authorized_plate: when the file exists and
reads, each line is stripped and uppercased and the uppercased plate text is
looked up; a missing file logs a warning and returns False; any exception
(unreadable store) is caught and returns False. -/
def verify_authorized_plate (store : AuthStore) (plate_text : String) : Bool :=
  match store with
  | AuthStore.readable lines =>
      (lines.map (fun line => pyUpper (pyStrip line))).contains (pyUpper plate_text)
  | AuthStore.missing => false
  | AuthStore.unreadable => false

/-! ## Decision engine and session state

From src/integration/toll_system.py. A plate record reaching
make_toll_decision and update_session_state is consumed only through its
text field. -/

/-- A detected plate as consumed by the decision engine. -/
structure PlateInfo : Type where
  text : String
  deriving DecidableEq, Repr

/-- Values of results.system_decision in toll_system.py. -/
inductive Decision : Type
  | PENDING : Decision
  | NO_PLATE_DETECTED : Decision
  | ACCESS_DENIED : Decision
  | SAFETY_VIOLATION : Decision
  | ACCESS_GRANTED : Decision
  | ERROR : Decision
  deriving DecidableEq, Repr

/-- The drowsiness status record as consumed by the decision engine
(drowsiness_status.get of drowsy and of yawning; the remaining keys are not
read by make_toll_decision or update_session_state). -/
structure DrowsinessStatus : Type where
  drowsy : Bool
  yawning : Bool
  deriving DecidableEq, Repr

/-- A violation entry as written by DualLayerTollSystem.log_violation
(timestamp and session id omitted, being pure run metadata). -/
structure ViolationRecord : Type where
  violation_type : String
  plate : String
  deriving DecidableEq, Repr

/-- The expression plates[0].text if plates else UNKNOWN used by
log_violation call sites. -/
def firstPlateText (plates : List PlateInfo) : String :=
  match plates with
  | [] => "UNKNOWN"
  | p :: _ => p.text

/-- DualLayerTollSystem.make_toll_decision. Returns the decision together
with the list of violation records appended to the audit sink during the
call. The authorization loop breaks at the first authorized plate, which is
List.any. -/
def make_toll_decision (store : AuthStore) (plates : List PlateInfo)
    (status : DrowsinessStatus) : Decision × List ViolationRecord :=
  if plates.isEmpty then
    (Decision.NO_PLATE_DETECTED, [])
  else
    let authorized_plate_found := plates.any (fun p => verify_authorized_plate store p.text)
    if !authorized_plate_found then
      (Decision.ACCESS_DENIED, [⟨"UNAUTHORIZED_PLATE", firstPlateText plates⟩])
    else if status.drowsy || status.yawning then
      (Decision.SAFETY_VIOLATION, [⟨"UNSAFE_DRIVER", firstPlateText plates⟩])
    else
      (Decision.ACCESS_GRANTED, [])

/-- The current_session dictionary of DualLayerTollSystem (session_start
omitted, being pure run metadata). -/
structure Session : Type where
  plate_detected : Bool
  plate_text : String
  is_authorized : Bool
  driver_safe : Bool
  violation_count : Nat
  deriving DecidableEq, Repr

/-- The session as initialized by DualLayerTollSystem init. -/
def initialSession : Session :=
  { plate_detected := false
    plate_text := ""
    is_authorized := false
    driver_safe := true
    violation_count := 0 }

/-- DualLayerTollSystem.update_session_state: when plates are present the
session takes the first plate as representative and re-verifies it; the
driver_safe flag is recomputed from the drowsiness status every cycle, and
an unsafe cycle increments violation_count. -/
def update_session_state (store : AuthStore) (s : Session)
    (plates : List PlateInfo) (status : DrowsinessStatus) : Session :=
  let s1 :=
    match plates with
    | [] => s
    | p :: _ =>
        { s with
          plate_detected := true
          plate_text := p.text
          is_authorized := verify_authorized_plate store p.text }
  let s2 := { s1 with driver_safe := !(status.drowsy || status.yawning) }
  if !s2.driver_safe then
    { s2 with violation_count := s2.violation_count + 1 }
  else
    s2

/-- Steps 3 and 4 of DualLayerTollSystem.process_frame: the decision, the
violations appended while deciding, and the updated session. -/
def process_frame_core (store : AuthStore) (s : Session)
    (plates : List PlateInfo) (status : DrowsinessStatus) :
    Decision × List ViolationRecord × Session :=
  let dv := make_toll_decision store plates status
  (dv.1, dv.2, update_session_state store s plates status)

/-! ## Centroid tracker

From src/license_plate/plate_tracker.py, class PlateTracker. -/

/-- A detection record as consumed by PlateTracker.update: the bbox tuple
(x, y, w, h), the text, and the confidence (carried but never read by the
tracker). Bounding boxes come from cv2.boundingRect and are non-negative. -/
structure Detection : Type where
  bbox : Nat × Nat × Nat × Nat
  text : String
  confidence : ℚ
  deriving DecidableEq, Repr

/-- A value of the objects dictionary of PlateTracker. -/
structure TrackedEntity : Type where
  centroid : Nat × Nat
  plate_text : String
  track_history : List (Nat × Nat)
  confidence_history : List ℚ
  deriving DecidableEq, Repr

/-- The mutable state of a PlateTracker instance. The objects and
disappeared dictionaries are parallel, keyed by the same object ids. -/
structure PlateTracker : Type where
  next_object_id : Nat
  objects : List (Nat × TrackedEntity)
  disappeared : List (Nat × Nat)
  max_disappeared : Nat
  max_distance : Nat
  deriving DecidableEq, Repr

/-- PlateTracker as constructed with the default arguments
max_disappeared=30, max_distance=100. -/
def PlateTracker.initial : PlateTracker :=
  { next_object_id := 0
    objects := []
    disappeared := []
    max_disappeared := 30
    max_distance := 100 }

/-- PlateTracker.register. -/
def PlateTracker.register (t : PlateTracker) (centroid : Nat × Nat)
    (plate_text : String) : PlateTracker :=
  { t with
    objects := alistSet t.objects t.next_object_id
      { centroid := centroid
        plate_text := plate_text
        track_history := []
        confidence_history := [] }
    disappeared := alistSet t.disappeared t.next_object_id 0
    next_object_id := t.next_object_id + 1 }

/-- PlateTracker.deregister. -/
def PlateTracker.deregister (t : PlateTracker) (object_id : Nat) : PlateTracker :=
  { t with
    objects := alistErase t.objects object_id
    disappeared := alistErase t.disappeared object_id }

/-- The centroid computation of PlateTracker.update:
cx = int(x + w / 2.0), cy = int(y + h / 2.0). For non-negative integer
inputs int truncation is floor, so cx = (2x + w) / 2 in integer division. -/
def centerOf (bbox : Nat × Nat × Nat × Nat) : Nat × Nat :=
  ((2 * bbox.1 + bbox.2.2.1) / 2, (2 * bbox.2.1 + bbox.2.2.2) / 2)

/-- Squared Euclidean distance between centroids. The source computes
np.linalg.norm, i.e. the square root; every comparison it performs on the
result is monotone under squaring, so distances are modelled squared. -/
def dist2 (p q : Nat × Nat) : ℤ :=
  ((p.1 : ℤ) - (q.1 : ℤ)) ^ 2 + ((p.2 : ℤ) - (q.2 : ℤ)) ^ 2

/-- Index of the first minimum of a nonempty list prefixed by best at index
idx - 1 relative positions; helper for argminIdx. -/
def argminAux (best : ℤ) (bestIdx : Nat) (idx : Nat) : List ℤ → Nat
  | [] => bestIdx
  | x :: xs =>
      if x < best then argminAux x idx (idx + 1) xs
      else argminAux best bestIdx (idx + 1) xs

/-- np.argmin over one row: index of the first occurrence of the minimum. -/
def argminIdx : List ℤ → Nat
  | [] => 0
  | x :: xs => argminAux x 0 1 xs

/-- Minimum of a nonempty list of squared distances (np.min along a row);
defaults to 0 on the empty list, which never occurs since update handles
empty detection lists separately. -/
def listMinD : List ℤ → ℤ
  | [] => 0
  | x :: xs => xs.foldl min x

/-- Stable insertion of x into a list sorted by key: x goes before the
first element with a strictly larger or equal key coming later; helper for
sortByKey. -/
def insertSorted (key : Nat → ℤ) (x : Nat) : List Nat → List Nat
  | [] => [x]
  | y :: ys => if key x ≤ key y then x :: y :: ys else y :: insertSorted key x ys

/-- np.argsort over the per-row minima: the row indices ordered by
ascending key. Modelled as a stable sort; ties in the key leave the numpy
order unspecified, but no property proved below depends on tie order. -/
def sortByKey (key : Nat → ℤ) : List Nat → List Nat
  | [] => []
  | x :: xs => insertSorted key x (sortByKey key xs)

/-- State threaded through the greedy assignment loop of
PlateTracker.update. The committed field is a ghost record of the committed
(row, col) pairs, added for specification only; it does not influence the
computation. -/
structure MatchLoopState : Type where
  objects : List (Nat × TrackedEntity)
  disappeared : List (Nat × Nat)
  usedRows : List Nat
  usedCols : List Nat
  committed : List (Nat × Nat)
  deriving DecidableEq, Repr

/-- The mutation a committed match applies to the matched entity: the
centroid is replaced, the new centroid is appended to the bounded track
history, and the stored text is overwritten only when the detection text is
truthy (non-empty). -/
def commitEntity (inCents : List (Nat × Nat)) (texts : List String)
    (obj : TrackedEntity) (col : Nat) : TrackedEntity :=
  { obj with
    centroid := inCents.getD col (0, 0)
    track_history := dequeAppend 10 obj.track_history (inCents.getD col (0, 0))
    plate_text := if texts.getD col "" ≠ "" then texts.getD col "" else obj.plate_text }

/-- One iteration of the for (row, col) in zip(rows, cols) loop of
PlateTracker.update: skip if the row or column is used or the distance
exceeds max_distance, otherwise commit the match. -/
def commitStep (objectIds : List Nat) (inCents : List (Nat × Nat))
    (texts : List String) (maxDist : Nat) (d : Nat → Nat → ℤ)
    (st : MatchLoopState) (rc : Nat × Nat) : MatchLoopState :=
  if rc.1 ∈ st.usedRows ∨ rc.2 ∈ st.usedCols then st
  else if d rc.1 rc.2 > (maxDist : ℤ) ^ 2 then st
  else
    match alistGet st.objects (objectIds.getD rc.1 0) with
    | none => st
    | some obj =>
        { objects := alistSet st.objects (objectIds.getD rc.1 0)
            (commitEntity inCents texts obj rc.2)
          disappeared := alistSet st.disappeared (objectIds.getD rc.1 0) 0
          usedRows := rc.1 :: st.usedRows
          usedCols := rc.2 :: st.usedCols
          committed := st.committed ++ [rc] }

/-- One pass of the empty-detections branch over the (id, count) pairs of
the disappeared dictionary: each count is incremented and entries crossing
max_disappeared are dropped. The Python loop iterates over a snapshot of
the keys and each iteration reads and writes only the entry of its own key,
so the loop is this structural recursion over the pairs. -/
def tickPairs (maxD : Nat) : List (Nat × Nat) → List (Nat × Nat)
  | [] => []
  | p :: rest =>
      if p.2 + 1 > maxD then tickPairs maxD rest
      else (p.1, p.2 + 1) :: tickPairs maxD rest

/-- The empty-detections branch of PlateTracker.update: increment every
disappeared counter and deregister the ids whose counter crossed
max_disappeared (deregister deletes the id from both dictionaries,
preserving the order of the remaining entries). -/
def tickEmptyBranch (t : PlateTracker) : PlateTracker :=
  let dis' := tickPairs t.max_disappeared t.disappeared
  { t with
    disappeared := dis'
    objects := t.objects.filter (fun p => (alistGet dis' p.1).isSome) }

/-- The no-existing-objects branch of PlateTracker.update: register one new
entity per detection, in input order. -/
def registerAll (t : PlateTracker) (cents : List (Nat × Nat))
    (texts : List String) : PlateTracker :=
  (cents.zip texts).foldl (fun acc p => acc.register p.1 p.2) t

/-- The input_centroids list of PlateTracker.update. -/
def inputCentroids (detections : List Detection) : List (Nat × Nat) :=
  detections.map (fun det => centerOf det.bbox)

/-- The plate_texts list of PlateTracker.update. -/
def inputTexts (detections : List Detection) : List String :=
  detections.map (fun det => det.text)

/-- Entry (i, j) of the distance matrix D of PlateTracker.update, squared:
row i indexes the existing object centroids, column j the detection
centroids. -/
def pairDist (objCents inCents : List (Nat × Nat)) (i j : Nat) : ℤ :=
  dist2 (objCents.getD i (0, 0)) (inCents.getD j (0, 0))

/-- The zip(rows, cols) pair sequence of PlateTracker.update: rows are the
row indices argsorted by their row minimum of D, and each row is paired
with the argmin of its row. -/
def assignmentPairs (objCents inCents : List (Nat × Nat)) : List (Nat × Nat) :=
  let d := pairDist objCents inCents
  let rowKey := fun i => listMinD ((List.range inCents.length).map (d i))
  let rows := sortByKey rowKey (List.range objCents.length)
  rows.map (fun r => (r, argminIdx ((List.range inCents.length).map (d r))))

/-- The greedy assignment loop of PlateTracker.update, run on the pair
sequence from the start state of the call. -/
def matchBranch (t : PlateTracker) (detections : List Detection) : MatchLoopState :=
  let inCents := inputCentroids detections
  (assignmentPairs (t.objects.map (fun p => p.2.centroid)) inCents).foldl
    (commitStep (t.objects.map Prod.fst) inCents (inputTexts detections)
      t.max_distance (pairDist (t.objects.map (fun p => p.2.centroid)) inCents))
    { objects := t.objects
      disappeared := t.disappeared
      usedRows := []
      usedCols := []
      committed := [] }

/-- PlateTracker.update, returning the new tracker state together with the
ghost list of committed (row, col) pairs of the greedy assignment loop
(empty for the two early branches). Row indices index the objects
dictionary in insertion order, column indices index the detections. -/
def PlateTracker.updateFull (t : PlateTracker) (detections : List Detection) :
    PlateTracker × List (Nat × Nat) :=
  if detections.isEmpty then
    (tickEmptyBranch t, [])
  else if t.objects.isEmpty then
    (registerAll t (inputCentroids detections) (inputTexts detections), [])
  else
    let stF := matchBranch t detections
    ({ t with objects := stF.objects, disappeared := stF.disappeared }, stF.committed)

/-- PlateTracker.update as seen by callers: the new tracked-entity state. -/
def PlateTracker.update (t : PlateTracker) (detections : List Detection) :
    PlateTracker :=
  (t.updateFull detections).1

/-- The object ids committed by the greedy assignment in one update call. -/
def matchedIds (t : PlateTracker) (detections : List Detection) : List Nat :=
  ((t.updateFull detections).2).map (fun rc => (t.objects.map Prod.fst).getD rc.1 0)

/-- Well-formedness of a tracker state, maintained by construction in the
source: the two dictionaries carry exactly the same keys in the same order
and keys are unique. -/
def PlateTracker.WF (t : PlateTracker) : Prop :=
  (t.objects.map Prod.fst).Nodup ∧ t.disappeared.map Prod.fst = t.objects.map Prod.fst

instance (t : PlateTracker) : Decidable t.WF := by
  unfold PlateTracker.WF
  infer_instance

/-- Invariant of the greedy assignment loop backing the one-to-one and
distance-bound properties: every committed pair has its row and column
marked used and its distance within the cutoff, and no row or column is
committed twice. -/
def LoopInv (d : Nat → Nat → ℤ) (maxDist : Nat) (st : MatchLoopState) : Prop :=
  (∀ rc ∈ st.committed,
      rc.1 ∈ st.usedRows ∧ rc.2 ∈ st.usedCols ∧ d rc.1 rc.2 ≤ (maxDist : ℤ) ^ 2) ∧
  (st.committed.map Prod.fst).Nodup ∧
  (st.committed.map Prod.snd).Nodup

/-- Invariant of the greedy assignment loop relating the evolving
dictionaries to the state at the start of the update call: rows not yet
used still hold their original entries, committed rows hold exactly the
committed mutation of their original entry, the used rows are exactly the
committed rows, keys never change, and committed rows are in range. -/
def TrackInv (ids : List Nat) (origObjs : List (Nat × TrackedEntity))
    (origDis : List (Nat × Nat)) (inCents : List (Nat × Nat))
    (texts : List String) (st : MatchLoopState) : Prop :=
  (∀ r, r < ids.length → r ∉ st.usedRows →
      alistGet st.objects (ids.getD r 0) = alistGet origObjs (ids.getD r 0) ∧
      alistGet st.disappeared (ids.getD r 0) = alistGet origDis (ids.getD r 0)) ∧
  (∀ rc ∈ st.committed,
      alistGet st.objects (ids.getD rc.1 0) =
        (alistGet origObjs (ids.getD rc.1 0)).map
          (fun obj => commitEntity inCents texts obj rc.2) ∧
      alistGet st.disappeared (ids.getD rc.1 0) = some 0) ∧
  (∀ r, r ∈ st.usedRows ↔ r ∈ st.committed.map Prod.fst) ∧
  st.objects.map Prod.fst = origObjs.map Prod.fst ∧
  st.disappeared.map Prod.fst = origDis.map Prod.fst ∧
  (∀ rc ∈ st.committed, rc.1 < ids.length)

/-! ## Association list lemmas -/

theorem alistGet_nil {α : Type} (k : Nat) : alistGet ([] : List (Nat × α)) k = none :=
  rfl

theorem alistGet_cons {α : Type} (p : Nat × α) (l : List (Nat × α)) (k : Nat) :
    alistGet (p :: l) k = if p.1 = k then some p.2 else alistGet l k := by
  by_cases h : p.1 = k <;> simp [alistGet, List.find?_cons, h]

theorem alistSet_cons {α : Type} (p : Nat × α) (l : List (Nat × α)) (k : Nat) (v : α) :
    alistSet (p :: l) k v =
      if p.1 = k then (k, v) :: l.map (fun q => if q.1 = k then (k, v) else q)
      else p :: alistSet l k v := by
  by_cases hp : p.1 = k
  · simp [alistSet, hp]
  · by_cases ha : l.any (fun q => q.1 == k) <;> simp [alistSet, hp, ha]

theorem alistGet_eq_none_iff {α : Type} (l : List (Nat × α)) (k : Nat) :
    alistGet l k = none ↔ k ∉ l.map Prod.fst := by
  induction l with
  | nil => simp [alistGet]
  | cons p l ih =>
    rw [alistGet_cons, List.map_cons]
    by_cases hp : p.1 = k
    · simp [hp]
    · rw [if_neg hp, ih, List.mem_cons]
      constructor
      · intro h hc
        rcases hc with hc | hc
        · exact hp hc.symm
        · exact h hc
      · intro h hc
        exact h (Or.inr hc)

theorem alistGet_map_setkey_ne {α : Type} (l : List (Nat × α)) (k k' : Nat) (v : α)
    (h : k ≠ k') :
    alistGet (l.map (fun q => if q.1 = k then (k, v) else q)) k' = alistGet l k' := by
  induction l with
  | nil => rfl
  | cons q l ih =>
    by_cases hq : q.1 = k
    · rw [List.map_cons, if_pos hq, alistGet_cons, alistGet_cons, if_neg h,
        if_neg (hq ▸ h), ih]
    · rw [List.map_cons, if_neg hq, alistGet_cons, alistGet_cons, ih]

theorem map_setkey_fst {α : Type} (l : List (Nat × α)) (k : Nat) (v : α) :
    (l.map (fun q => if q.1 = k then (k, v) else q)).map Prod.fst =
      l.map Prod.fst := by
  induction l with
  | nil => rfl
  | cons q l ih => by_cases hq : q.1 = k <;> simp [hq, ih]

theorem alistGet_alistSet_self {α : Type} (l : List (Nat × α)) (k : Nat) (v : α) :
    alistGet (alistSet l k v) k = some v := by
  induction l with
  | nil => simp [alistSet, alistGet_cons]
  | cons p l ih =>
    rw [alistSet_cons]
    by_cases hp : p.1 = k
    · rw [if_pos hp, alistGet_cons, if_pos rfl]
    · rw [if_neg hp, alistGet_cons, if_neg hp, ih]

theorem alistGet_alistSet_ne {α : Type} (l : List (Nat × α)) (k k' : Nat) (v : α)
    (h : k ≠ k') : alistGet (alistSet l k v) k' = alistGet l k' := by
  induction l with
  | nil => simp [alistSet, alistGet_cons, h]
  | cons p l ih =>
    rw [alistSet_cons]
    by_cases hp : p.1 = k
    · rw [if_pos hp, alistGet_cons, alistGet_cons, if_neg h, if_neg (hp ▸ h),
        alistGet_map_setkey_ne l k k' v h]
    · rw [if_neg hp, alistGet_cons, alistGet_cons, ih]

theorem alistSet_map_fst {α : Type} (l : List (Nat × α)) (k : Nat) (v : α)
    (h : k ∈ l.map Prod.fst) :
    (alistSet l k v).map Prod.fst = l.map Prod.fst := by
  induction l with
  | nil => simp at h
  | cons p l ih =>
    rw [alistSet_cons]
    by_cases hp : p.1 = k
    · rw [if_pos hp, List.map_cons, List.map_cons, map_setkey_fst, hp]
    · have hmem : k ∈ l.map Prod.fst := by
        rw [List.map_cons, List.mem_cons] at h
        rcases h with h1 | h1
        · exact absurd h1.symm hp
        · exact h1
      rw [if_neg hp, List.map_cons, List.map_cons, ih hmem]

theorem alistGet_isSome_of_mem {α : Type} (l : List (Nat × α)) (k : Nat)
    (h : k ∈ l.map Prod.fst) : (alistGet l k).isSome := by
  cases hg : alistGet l k with
  | none => exact absurd ((alistGet_eq_none_iff l k).mp hg) (not_not_intro h)
  | some v => rfl

/-! ## Lemmas about the empty-detections branch -/

theorem tickPairs_keys_subset (m : Nat) (l : List (Nat × Nat)) :
    (tickPairs m l).map Prod.fst ⊆ l.map Prod.fst := by
  induction l with
  | nil => simp [tickPairs]
  | cons p l ih =>
    by_cases h : p.2 + 1 > m
    · rw [tickPairs, if_pos h]
      exact ih.trans (List.subset_cons_self _ _)
    · rw [tickPairs, if_neg h]
      intro x hx
      rw [List.map_cons, List.mem_cons] at hx
      rcases hx with h1 | h1
      · rw [List.map_cons, List.mem_cons]
        exact Or.inl h1
      · exact List.mem_cons_of_mem _ (ih h1)

theorem alistGet_tickPairs_of_not_mem (m : Nat) (l : List (Nat × Nat)) (k : Nat)
    (h : k ∉ l.map Prod.fst) : alistGet (tickPairs m l) k = none :=
  (alistGet_eq_none_iff _ _).mpr (fun hk => h (tickPairs_keys_subset m l hk))

theorem alistGet_tickPairs (m : Nat) (l : List (Nat × Nat))
    (hnd : (l.map Prod.fst).Nodup) (k d : Nat) (h : alistGet l k = some d) :
    alistGet (tickPairs m l) k = if d + 1 > m then none else some (d + 1) := by
  induction l with
  | nil => simp [alistGet] at h
  | cons p l ih =>
    rw [alistGet_cons] at h
    rw [List.map_cons, List.nodup_cons] at hnd
    by_cases hp : p.1 = k
    · rw [if_pos hp] at h
      have hd : p.2 = d := Option.some.inj h
      subst hd
      by_cases hgt : p.2 + 1 > m
      · rw [tickPairs, if_pos hgt, if_pos hgt]
        exact alistGet_tickPairs_of_not_mem m l k (hp ▸ hnd.1)
      · rw [tickPairs, if_neg hgt, if_neg hgt, alistGet_cons, if_pos hp]
    · rw [if_neg hp] at h
      by_cases hgt : p.2 + 1 > m
      · rw [tickPairs, if_pos hgt, ih hnd.2 h]
      · rw [tickPairs, if_neg hgt, alistGet_cons, if_neg hp, ih hnd.2 h]

theorem alistGet_filter_isSome {α : Type} (dis : List (Nat × Nat))
    (l : List (Nat × α)) (k : Nat) :
    alistGet (l.filter (fun p => (alistGet dis p.1).isSome)) k =
      if (alistGet dis k).isSome then alistGet l k else none := by
  induction l with
  | nil => simp [alistGet]
  | cons p l ih =>
    by_cases hp : p.1 = k
    · subst hp
      by_cases hf : (alistGet dis p.1).isSome
      · rw [List.filter_cons_of_pos (by simpa using hf), alistGet_cons, if_pos rfl,
          if_pos hf, alistGet_cons, if_pos rfl]
      · rw [List.filter_cons_of_neg (by simpa using hf), ih, if_neg hf, if_neg hf]
    · have hrhs : alistGet (p :: l) k = alistGet l k := by
        rw [alistGet_cons, if_neg hp]
      by_cases hf : (alistGet dis p.1).isSome
      · rw [List.filter_cons_of_pos (by simpa using hf), alistGet_cons, if_neg hp,
          ih, hrhs]
      · rw [List.filter_cons_of_neg (by simpa using hf), ih, hrhs]

/-! ## Lemmas about the greedy assignment loop -/

theorem updateFull_match (t : PlateTracker) (detections : List Detection)
    (hd : detections ≠ []) (ho : t.objects ≠ []) :
    t.updateFull detections =
      ({ t with
          objects := (matchBranch t detections).objects
          disappeared := (matchBranch t detections).disappeared },
        (matchBranch t detections).committed) := by
  have hd' : detections.isEmpty = false := by
    cases detections with
    | nil => exact absurd rfl hd
    | cons a l => rfl
  have ho' : t.objects.isEmpty = false := by
    cases hobj : t.objects with
    | nil => exact absurd hobj ho
    | cons a l => rfl
  unfold PlateTracker.updateFull
  rw [hd', ho']
  simp

theorem commitStep_loopInv (objectIds : List Nat) (inCents : List (Nat × Nat))
    (texts : List String) (maxDist : Nat) (d : Nat → Nat → ℤ)
    (st : MatchLoopState) (rc : Nat × Nat) (h : LoopInv d maxDist st) :
    LoopInv d maxDist (commitStep objectIds inCents texts maxDist d st rc) := by
  unfold commitStep
  by_cases hused : rc.1 ∈ st.usedRows ∨ rc.2 ∈ st.usedCols
  · rw [if_pos hused]
    exact h
  · rw [if_neg hused]
    by_cases hdist : d rc.1 rc.2 > (maxDist : ℤ) ^ 2
    · rw [if_pos hdist]
      exact h
    · rw [if_neg hdist]
      cases hobj : alistGet st.objects (objectIds.getD rc.1 0) with
      | none => exact h
      | some obj =>
        dsimp only
        obtain ⟨h1, h2, h3⟩ := h
        push_neg at hused
        have hr : rc.1 ∉ st.committed.map Prod.fst := by
          intro hmem
          obtain ⟨rc', hrc', hfst⟩ := List.mem_map.mp hmem
          exact hused.1 (hfst ▸ (h1 rc' hrc').1)
        have hc : rc.2 ∉ st.committed.map Prod.snd := by
          intro hmem
          obtain ⟨rc', hrc', hsnd⟩ := List.mem_map.mp hmem
          exact hused.2 (hsnd ▸ (h1 rc' hrc').2.1)
        refine ⟨?_, ?_, ?_⟩
        · intro rc' hrc'
          rcases List.mem_append.mp hrc' with hmem | hmem
          · obtain ⟨ha, hb, hcc⟩ := h1 rc' hmem
            exact ⟨List.mem_cons_of_mem _ ha, List.mem_cons_of_mem _ hb, hcc⟩
          · rcases List.mem_singleton.mp hmem with rfl
            exact ⟨List.mem_cons_self _ _, List.mem_cons_self _ _, not_lt.mp hdist⟩
        · rw [List.map_append]
          refine List.Nodup.append h2 (by simp) ?_
          intro x hx hy
          rcases List.mem_singleton.mp (by simpa using hy) with rfl
          exact hr hx
        · rw [List.map_append]
          refine List.Nodup.append h3 (by simp) ?_
          intro x hx hy
          rcases List.mem_singleton.mp (by simpa using hy) with rfl
          exact hc hx

theorem foldl_loopInv (objectIds : List Nat) (inCents : List (Nat × Nat))
    (texts : List String) (maxDist : Nat) (d : Nat → Nat → ℤ)
    (ps : List (Nat × Nat)) (st : MatchLoopState) (h : LoopInv d maxDist st) :
    LoopInv d maxDist
      (ps.foldl (commitStep objectIds inCents texts maxDist d) st) := by
  induction ps generalizing st with
  | nil => exact h
  | cons p ps ih =>
    exact ih _ (commitStep_loopInv objectIds inCents texts maxDist d st p h)

theorem matchBranch_loopInv (t : PlateTracker) (detections : List Detection) :
    LoopInv
      (pairDist (t.objects.map (fun p => p.2.centroid)) (inputCentroids detections))
      t.max_distance (matchBranch t detections) := by
  unfold matchBranch
  exact foldl_loopInv _ _ _ _ _ _ _
    ⟨by intro rc hrc; exact absurd hrc (List.not_mem_nil rc), List.nodup_nil,
      List.nodup_nil⟩

theorem mem_insertSorted (key : Nat → ℤ) (x a : Nat) (l : List Nat) :
    a ∈ insertSorted key x l ↔ a = x ∨ a ∈ l := by
  induction l with
  | nil => simp [insertSorted]
  | cons y ys ih =>
    unfold insertSorted
    by_cases h : key x ≤ key y
    · rw [if_pos h]
      simp [List.mem_cons]
    · rw [if_neg h]
      simp only [List.mem_cons, ih]
      tauto

theorem mem_sortByKey (key : Nat → ℤ) (l : List Nat) (a : Nat) :
    a ∈ sortByKey key l ↔ a ∈ l := by
  induction l with
  | nil => simp [sortByKey]
  | cons x xs ih =>
    unfold sortByKey
    rw [mem_insertSorted, ih, List.mem_cons]

theorem assignmentPairs_fst_lt (objCents inCents : List (Nat × Nat))
    (rc : Nat × Nat) (h : rc ∈ assignmentPairs objCents inCents) :
    rc.1 < objCents.length := by
  unfold assignmentPairs at h
  obtain ⟨r, hr, hrc⟩ := List.mem_map.mp h
  rw [mem_sortByKey, List.mem_range] at hr
  rw [← hrc]
  exact hr

theorem getD_mem_of_lt (l : List Nat) (i : Nat) (hi : i < l.length) :
    l.getD i 0 ∈ l := by
  rw [List.getD_eq_getElem l 0 hi]
  exact List.getElem_mem hi

theorem getD_ne_of_nodup (l : List Nat) (hnd : l.Nodup) (i j : Nat)
    (hi : i < l.length) (hj : j < l.length) (hij : i ≠ j) :
    l.getD i 0 ≠ l.getD j 0 := by
  rw [List.getD_eq_getElem l 0 hi, List.getD_eq_getElem l 0 hj]
  intro h
  exact hij ((List.Nodup.getElem_inj_iff hnd).mp h)

theorem commitStep_trackInv (ids : List Nat) (origObjs : List (Nat × TrackedEntity))
    (origDis : List (Nat × Nat)) (inCents : List (Nat × Nat)) (texts : List String)
    (maxDist : Nat) (d : Nat → Nat → ℤ)
    (hnd : ids.Nodup) (hok : origObjs.map Prod.fst = ids)
    (hdk : origDis.map Prod.fst = ids)
    (st : MatchLoopState) (rc : Nat × Nat) (hlt : rc.1 < ids.length)
    (h : TrackInv ids origObjs origDis inCents texts st) :
    TrackInv ids origObjs origDis inCents texts
      (commitStep ids inCents texts maxDist d st rc) := by
  unfold commitStep
  by_cases hused : rc.1 ∈ st.usedRows ∨ rc.2 ∈ st.usedCols
  · rw [if_pos hused]
    exact h
  · rw [if_neg hused]
    by_cases hdist : d rc.1 rc.2 > (maxDist : ℤ) ^ 2
    · rw [if_pos hdist]
      exact h
    · rw [if_neg hdist]
      cases hobj : alistGet st.objects (ids.getD rc.1 0) with
      | none => exact h
      | some obj =>
        dsimp only
        obtain ⟨h1, h2, h3, h4, h5, h6⟩ := h
        push_neg at hused
        have horig : alistGet origObjs (ids.getD rc.1 0) = some obj := by
          rw [← (h1 rc.1 hlt hused.1).1, hobj]
        have hmemkeys : ids.getD rc.1 0 ∈ st.objects.map Prod.fst := by
          rw [h4, hok]
          exact getD_mem_of_lt ids rc.1 hlt
        have hmemdis : ids.getD rc.1 0 ∈ st.disappeared.map Prod.fst := by
          rw [h5, hdk]
          exact getD_mem_of_lt ids rc.1 hlt
        refine ⟨?_, ?_, ?_, ?_, ?_, ?_⟩
        · intro r hr hrnot
          have hr1 : r ≠ rc.1 := by
            intro he
            exact hrnot (he ▸ List.mem_cons_self rc.1 st.usedRows)
          have hr2 : r ∉ st.usedRows := fun hm => hrnot (List.mem_cons_of_mem _ hm)
          have hne : ids.getD rc.1 0 ≠ ids.getD r 0 :=
            getD_ne_of_nodup ids hnd rc.1 r hlt hr (Ne.symm hr1)
          rw [alistGet_alistSet_ne _ _ _ _ hne, alistGet_alistSet_ne _ _ _ _ hne]
          exact h1 r hr hr2
        · intro rc' hrc'
          rcases List.mem_append.mp hrc' with hmem | hmem
          · have hrow : rc'.1 ∈ st.usedRows :=
              (h3 rc'.1).mpr (List.mem_map_of_mem Prod.fst hmem)
            have hne' : rc'.1 ≠ rc.1 := by
              intro he
              exact hused.1 (he ▸ hrow)
            have hne : ids.getD rc.1 0 ≠ ids.getD rc'.1 0 :=
              getD_ne_of_nodup ids hnd rc.1 rc'.1 hlt (h6 rc' hmem) (Ne.symm hne')
            rw [alistGet_alistSet_ne _ _ _ _ hne, alistGet_alistSet_ne _ _ _ _ hne]
            exact h2 rc' hmem
          · rcases List.mem_singleton.mp hmem with rfl
            rw [alistGet_alistSet_self, alistGet_alistSet_self, horig]
            exact ⟨rfl, rfl⟩
        · intro r
          constructor
          · intro hmem
            rw [List.map_append]
            rcases List.mem_cons.mp hmem with he | hm
            · exact List.mem_append.mpr (Or.inr (by simp [he]))
            · exact List.mem_append.mpr (Or.inl ((h3 r).mp hm))
          · intro hmem
            rw [List.map_append, List.mem_append] at hmem
            rcases hmem with hm | hm
            · exact List.mem_cons_of_mem _ ((h3 r).mpr hm)
            · have : r = rc.1 := by simpa using hm
              exact List.mem_cons.mpr (Or.inl this)
        · rw [alistSet_map_fst st.objects _ _ hmemkeys]
          exact h4
        · rw [alistSet_map_fst st.disappeared _ _ hmemdis]
          exact h5
        · intro rc' hrc'
          rcases List.mem_append.mp hrc' with hmem | hmem
          · exact h6 rc' hmem
          · rcases List.mem_singleton.mp hmem with rfl
            exact hlt

theorem foldl_trackInv (ids : List Nat) (origObjs : List (Nat × TrackedEntity))
    (origDis : List (Nat × Nat)) (inCents : List (Nat × Nat)) (texts : List String)
    (maxDist : Nat) (d : Nat → Nat → ℤ)
    (hnd : ids.Nodup) (hok : origObjs.map Prod.fst = ids)
    (hdk : origDis.map Prod.fst = ids)
    (ps : List (Nat × Nat)) (hps : ∀ rc ∈ ps, rc.1 < ids.length)
    (st : MatchLoopState) (h : TrackInv ids origObjs origDis inCents texts st) :
    TrackInv ids origObjs origDis inCents texts
      (ps.foldl (commitStep ids inCents texts maxDist d) st) := by
  induction ps generalizing st with
  | nil => exact h
  | cons p ps ih =>
    exact ih (fun rc hrc => hps rc (List.mem_cons_of_mem _ hrc)) _
      (commitStep_trackInv ids origObjs origDis inCents texts maxDist d hnd hok hdk
        st p (hps p (List.mem_cons_self _ _)) h)

theorem matchBranch_trackInv (t : PlateTracker) (detections : List Detection)
    (hwf : t.WF) :
    TrackInv (t.objects.map Prod.fst) t.objects t.disappeared
      (inputCentroids detections) (inputTexts detections)
      (matchBranch t detections) := by
  obtain ⟨hnd, hkeys⟩ := hwf
  unfold matchBranch
  refine foldl_trackInv _ _ _ _ _ t.max_distance _ hnd rfl hkeys _ ?_ _
    ⟨fun r hr hn => ⟨rfl, rfl⟩, fun rc hrc => absurd hrc (List.not_mem_nil rc),
      fun r => by simp, rfl, rfl, fun rc hrc => absurd hrc (List.not_mem_nil rc)⟩
  intro rc hrc
  have hlt := assignmentPairs_fst_lt _ _ rc hrc
  simpa using hlt

/-! ## Decision engine claims -/

/-- C1, as stated: with a detection present whose selected identifier is
not authorized, the claim asserts the cycle increments violation_count by
exactly 1. At the concrete cycle below (one unauthorized plate, safety
flags clear) the code returns ACCESS_DENIED and appends one violation
record, yet violation_count stays 0: the authorization path never touches
violation_count, which is incremented only by the safety-flag path of
update_session_state. -/
theorem C1_counterexample :
    (process_frame_core (AuthStore.readable ["XY999"]) initialSession
        [⟨"AB123"⟩] ⟨false, false⟩).1 = Decision.ACCESS_DENIED ∧
    (process_frame_core (AuthStore.readable ["XY999"]) initialSession
        [⟨"AB123"⟩] ⟨false, false⟩).2.1 = [⟨"UNAUTHORIZED_PLATE", "AB123"⟩] ∧
    (process_frame_core (AuthStore.readable ["XY999"]) initialSession
        [⟨"AB123"⟩] ⟨false, false⟩).2.2.violation_count = 0 ∧
    ¬ (process_frame_core (AuthStore.readable ["XY999"]) initialSession
        [⟨"AB123"⟩] ⟨false, false⟩).2.2.violation_count =
        initialSession.violation_count + 1 := by
  decide

/-- C1 amended: in a cycle with detections present none of which carries an
authorized identifier, the decision is ACCESS_DENIED, exactly one
UNAUTHORIZED_PLATE violation record is appended, the session's
is_authorized becomes false, the safety flags have no effect on the
returned decision, and violation_count is unchanged when the safety flags
are clear (the authorization path never increments it). -/
theorem C1_amended_denied (store : AuthStore) (s : Session) (p : PlateInfo)
    (rest : List PlateInfo) (status : DrowsinessStatus)
    (hnone : ∀ q ∈ p :: rest, verify_authorized_plate store q.text = false)
    (hd : status.drowsy = false) (hy : status.yawning = false) :
    make_toll_decision store (p :: rest) status =
      (Decision.ACCESS_DENIED, [⟨"UNAUTHORIZED_PLATE", p.text⟩]) ∧
    (update_session_state store s (p :: rest) status).is_authorized = false ∧
    (update_session_state store s (p :: rest) status).violation_count =
      s.violation_count ∧
    ∀ status2 : DrowsinessStatus,
      (make_toll_decision store (p :: rest) status2).1 = Decision.ACCESS_DENIED := by
  have hany : (p :: rest).any (fun q => verify_authorized_plate store q.text) = false := by
    rw [List.any_eq_false]
    intro q hq
    simp [hnone q hq]
  have hp : verify_authorized_plate store p.text = false :=
    hnone p (List.mem_cons_self p rest)
  refine ⟨?_, ?_, ?_, ?_⟩
  · unfold make_toll_decision
    simp [hany, firstPlateText]
  · unfold update_session_state
    simp [hp, hd, hy]
  · unfold update_session_state
    simp [hd, hy]
  · intro status2
    unfold make_toll_decision
    simp [hany]

/-- C1 amended, witnessed at a concrete cycle: one unauthorized plate
against a readable store with a different entry, safety flags clear. -/
theorem C1_amended_denied_witness :
    (∀ q ∈ [(⟨"AB123"⟩ : PlateInfo)],
        verify_authorized_plate (AuthStore.readable ["XY999"]) q.text = false) ∧
    make_toll_decision (AuthStore.readable ["XY999"]) [⟨"AB123"⟩] ⟨false, false⟩ =
      (Decision.ACCESS_DENIED, [⟨"UNAUTHORIZED_PLATE", "AB123"⟩]) := by
  refine ⟨by decide, ?_⟩
  exact (C1_amended_denied (AuthStore.readable ["XY999"]) initialSession ⟨"AB123"⟩ []
    ⟨false, false⟩ (by decide) rfl rfl).1

/-- C3, as stated: the claim asserts an unreadable authorization store
yields decision ERROR with no violation recorded. At the concrete cycle
below the code instead returns ACCESS_DENIED and appends one violation
record: verify_authorized_plate catches the read error internally and
returns False, so the engine treats the plate as unauthorized. -/
theorem C3_counterexample :
    (process_frame_core AuthStore.unreadable initialSession
        [⟨"AB1234"⟩] ⟨false, false⟩).1 = Decision.ACCESS_DENIED ∧
    ¬ (process_frame_core AuthStore.unreadable initialSession
        [⟨"AB1234"⟩] ⟨false, false⟩).1 = Decision.ERROR ∧
    (process_frame_core AuthStore.unreadable initialSession
        [⟨"AB1234"⟩] ⟨false, false⟩).2.1.length = 1 := by
  decide

/-- C3 amended: when the authorization store is unreadable the lookup
exception is caught inside verify_authorized_plate, which returns false;
the cycle therefore treats every identifier as unauthorized and returns
ACCESS_DENIED with one UNAUTHORIZED_PLATE violation record; the session's
violation_count is still unchanged when the safety flags are clear, and
is_authorized becomes false. -/
theorem C3_amended_unreadable (s : Session) (p : PlateInfo) (rest : List PlateInfo)
    (status : DrowsinessStatus) (hd : status.drowsy = false)
    (hy : status.yawning = false) :
    make_toll_decision AuthStore.unreadable (p :: rest) status =
      (Decision.ACCESS_DENIED, [⟨"UNAUTHORIZED_PLATE", p.text⟩]) ∧
    (update_session_state AuthStore.unreadable s (p :: rest) status).violation_count =
      s.violation_count ∧
    (update_session_state AuthStore.unreadable s (p :: rest) status).is_authorized =
      false := by
  refine ⟨?_, ?_, ?_⟩
  · unfold make_toll_decision
    simp [verify_authorized_plate, firstPlateText]
  · unfold update_session_state
    simp [hd, hy]
  · unfold update_session_state
    simp [verify_authorized_plate, hd, hy]

/-- C3 amended, witnessed at a concrete cycle with the unreadable store. -/
theorem C3_amended_unreadable_witness :
    make_toll_decision AuthStore.unreadable [⟨"AB1234"⟩] ⟨false, false⟩ =
      (Decision.ACCESS_DENIED, [⟨"UNAUTHORIZED_PLATE", "AB1234"⟩]) ∧
    (update_session_state AuthStore.unreadable initialSession
        [⟨"AB1234"⟩] ⟨false, false⟩).violation_count = 0 := by
  exact ⟨(C3_amended_unreadable initialSession ⟨"AB1234"⟩ [] ⟨false, false⟩ rfl rfl).1,
    (C3_amended_unreadable initialSession ⟨"AB1234"⟩ [] ⟨false, false⟩ rfl rfl).2.1⟩

/-- C4, as stated: the claim asserts the decision is determined by a single
deterministically selected representative identifier (the first). The two
concrete cycles below share the same first plate and the same store and
safety status, differing only in the identifier of the second plate, yet
the decisions differ: the authorization check ranges over all detected
plates (any-authorized), not over a single representative. -/
theorem C4_counterexample :
    (make_toll_decision (AuthStore.readable ["XY999"])
        [⟨"AB123"⟩, ⟨"XY999"⟩] ⟨false, false⟩).1 = Decision.ACCESS_GRANTED ∧
    (make_toll_decision (AuthStore.readable ["XY999"])
        [⟨"AB123"⟩, ⟨"CD456"⟩] ⟨false, false⟩).1 = Decision.ACCESS_DENIED := by
  decide

/-- C4 amended: the authorization portion of the decision depends on the
detected identifiers only through whether any of them is authorized: two
cycles with detections present whose any-authorized results agree produce
the same decision. -/
theorem C4_amended_any_authorized (store : AuthStore) (status : DrowsinessStatus)
    (p q : PlateInfo) (rest1 rest2 : List PlateInfo)
    (h : (p :: rest1).any (fun r => verify_authorized_plate store r.text) =
         (q :: rest2).any (fun r => verify_authorized_plate store r.text)) :
    (make_toll_decision store (p :: rest1) status).1 =
      (make_toll_decision store (q :: rest2) status).1 := by
  unfold make_toll_decision
  simp only [List.isEmpty_cons, Bool.false_eq_true, if_false]
  rw [h]
  cases hb : (q :: rest2).any (fun r => verify_authorized_plate store r.text) <;>
    cases hsafe : (status.drowsy || status.yawning) <;>
      simp [hb, hsafe]

/-- C4 amended, witnessed at two concrete cycles with distinct plate lists
agreeing on the any-authorized result. -/
theorem C4_amended_any_authorized_witness :
    (make_toll_decision (AuthStore.readable ["XY999"])
        [⟨"AB123"⟩, ⟨"XY999"⟩] ⟨false, false⟩).1 =
      (make_toll_decision (AuthStore.readable ["XY999"])
        [⟨"XY999"⟩] ⟨false, false⟩).1 :=
  C4_amended_any_authorized (AuthStore.readable ["XY999"]) ⟨false, false⟩
    ⟨"AB123"⟩ ⟨"XY999"⟩ [⟨"XY999"⟩] [] (by decide)

/-- C7: a cycle whose first detected plate is authorized and whose safety
flags are clear returns ACCESS_GRANTED, appends no violation record, marks
the driver safe, and leaves violation_count unchanged. -/
theorem C7_granted_cycle (store : AuthStore) (s : Session) (p : PlateInfo)
    (rest : List PlateInfo) (status : DrowsinessStatus)
    (hauth : verify_authorized_plate store p.text = true)
    (hd : status.drowsy = false) (hy : status.yawning = false) :
    make_toll_decision store (p :: rest) status = (Decision.ACCESS_GRANTED, []) ∧
    (update_session_state store s (p :: rest) status).driver_safe = true ∧
    (update_session_state store s (p :: rest) status).violation_count =
      s.violation_count := by
  have hany : (p :: rest).any (fun q => verify_authorized_plate store q.text) = true := by
    simp [List.any_cons, hauth]
  refine ⟨?_, ?_, ?_⟩
  · unfold make_toll_decision
    simp [hany, hd, hy]
  · unfold update_session_state
    simp [hd, hy]
  · unfold update_session_state
    simp [hd, hy]

/-- C7, witnessed at a concrete authorized safe cycle. -/
theorem C7_granted_cycle_witness :
    verify_authorized_plate (AuthStore.readable ["XY999"]) "xy999" = true ∧
    make_toll_decision (AuthStore.readable ["XY999"]) [⟨"xy999"⟩] ⟨false, false⟩ =
      (Decision.ACCESS_GRANTED, []) := by
  refine ⟨by decide, ?_⟩
  exact (C7_granted_cycle (AuthStore.readable ["XY999"]) initialSession ⟨"xy999"⟩ []
    ⟨false, false⟩ (by decide) rfl rfl).1

/-- C10: whenever the drowsiness status reports drowsy or yawning,
update_session_state increments violation_count by exactly one and marks
the driver unsafe, for every plate list and store, hence also in cycles
whose decision is NO_PLATE_DETECTED (empty plate list, included as the last
conjunct) or ACCESS_DENIED. -/
theorem C10_unsafe_increments (store : AuthStore) (s : Session)
    (plates : List PlateInfo) (status : DrowsinessStatus)
    (h : status.drowsy = true ∨ status.yawning = true) :
    (update_session_state store s plates status).violation_count =
      s.violation_count + 1 ∧
    (update_session_state store s plates status).driver_safe = false ∧
    (plates = [] →
      (make_toll_decision store plates status).1 = Decision.NO_PLATE_DETECTED) := by
  have hor : (status.drowsy || status.yawning) = true := by
    rcases h with h | h <;> simp [h]
  unfold update_session_state make_toll_decision
  cases plates <;> simp [hor]

/-- C10, witnessed at a concrete drowsy cycle with no plate detected. -/
theorem C10_unsafe_increments_witness :
    (update_session_state AuthStore.missing initialSession [] ⟨true, false⟩).violation_count =
      initialSession.violation_count + 1 :=
  (C10_unsafe_increments AuthStore.missing initialSession [] ⟨true, false⟩ (Or.inl rfl)).1

/-! ## Tracker claims: concrete scenarios -/

/-- C9: on an empty tracker, one detection with region (10, 10, 50, 20),
text AB1234 and confidence 0.9 registers exactly one entity with centroid
(35, 20), identifier AB1234 and frames_missing 0. -/
theorem C9_single_registration :
    PlateTracker.initial.update [⟨(10, 10, 50, 20), "AB1234", 9 / 10⟩] =
      { next_object_id := 1
        objects := [(0, { centroid := (35, 20), plate_text := "AB1234",
                          track_history := [], confidence_history := [] })]
        disappeared := [(0, 0)]
        max_disappeared := 30
        max_distance := 100 } := by
  decide

/-- C2, as stated: the claim asserts every entity left unmatched in a
non-empty-detection cycle has frames_missing incremented. At the concrete
cycle below the single tracked entity (frames_missing 2) is unmatched (the
only detection is far beyond max_distance, and the ghost match list is
empty), yet after the update frames_missing is still 2 and the entity is
untouched: the non-empty branch of PlateTracker.update never increments
frames_missing for unmatched rows. -/
theorem C2_counterexample :
    ((⟨1, [(0, ⟨(35, 20), "OLD1", [], []⟩)], [(0, 2)], 30, 100⟩ : PlateTracker).updateFull
        [⟨(1000, 1000, 10, 10), "FAR1", 1 / 2⟩]).2 = [] ∧
    alistGet ((⟨1, [(0, ⟨(35, 20), "OLD1", [], []⟩)], [(0, 2)], 30, 100⟩ : PlateTracker).update
        [⟨(1000, 1000, 10, 10), "FAR1", 1 / 2⟩]).disappeared 0 = some 2 ∧
    alistGet ((⟨1, [(0, ⟨(35, 20), "OLD1", [], []⟩)], [(0, 2)], 30, 100⟩ : PlateTracker).update
        [⟨(1000, 1000, 10, 10), "FAR1", 1 / 2⟩]).objects 0 =
      some ⟨(35, 20), "OLD1", [], []⟩ := by
  decide

/-- C5: an update cycle with an empty detection list registers no new
entity (next id unchanged, no new keys), increments every existing
frames_missing counter by exactly one, and removes an entity exactly when
its incremented counter strictly exceeds max_disappeared: at the boundary
the entity survives with the incremented counter and its entry intact. -/
theorem C5_empty_detections (t : PlateTracker) (hwf : t.WF) :
    (t.update []).next_object_id = t.next_object_id ∧
    (t.update []).objects.map Prod.fst ⊆ t.objects.map Prod.fst ∧
    ∀ oid d, alistGet t.disappeared oid = some d →
      (d + 1 > t.max_disappeared →
        alistGet (t.update []).objects oid = none ∧
        alistGet (t.update []).disappeared oid = none) ∧
      (d + 1 ≤ t.max_disappeared →
        alistGet (t.update []).disappeared oid = some (d + 1) ∧
        alistGet (t.update []).objects oid = alistGet t.objects oid) := by
  obtain ⟨hnd, hkeys⟩ := hwf
  have hdnd : (t.disappeared.map Prod.fst).Nodup := by
    rw [hkeys]
    exact hnd
  have hupd : t.update [] = tickEmptyBranch t := by
    simp [PlateTracker.update, PlateTracker.updateFull]
  have hobj : (tickEmptyBranch t).objects =
      t.objects.filter
        (fun p => (alistGet (tickPairs t.max_disappeared t.disappeared) p.1).isSome) :=
    rfl
  have hdis : (tickEmptyBranch t).disappeared =
      tickPairs t.max_disappeared t.disappeared := rfl
  rw [hupd]
  refine ⟨rfl, ?_, ?_⟩
  · rw [hobj]
    exact ((List.filter_sublist t.objects).map Prod.fst).subset
  · rw [hobj, hdis]
    intro oid d h
    have hget := alistGet_tickPairs t.max_disappeared t.disappeared hdnd oid d h
    constructor
    · intro hgt
      have hnone : alistGet (tickPairs t.max_disappeared t.disappeared) oid = none := by
        rw [hget, if_pos hgt]
      refine ⟨?_, hnone⟩
      rw [alistGet_filter_isSome, hnone]
      simp
    · intro hle
      have hgt : ¬ d + 1 > t.max_disappeared := Nat.not_lt.mpr hle
      have hsome : alistGet (tickPairs t.max_disappeared t.disappeared) oid =
          some (d + 1) := by
        rw [hget, if_neg hgt]
      refine ⟨hsome, ?_⟩
      rw [alistGet_filter_isSome, hsome]
      simp

/-- C5, witnessed at a concrete tracker with one entity at the removal
boundary (counter 30 with max_disappeared 30, removed at 31) and one below
it (counter 3, surviving at 4). -/
theorem C5_empty_detections_witness :
    (PlateTracker.WF
      ⟨2, [(0, ⟨(35, 20), "A", [], []⟩), (1, ⟨(5, 5), "B", [], []⟩)],
        [(0, 30), (1, 3)], 30, 100⟩) ∧
    alistGet ((⟨2, [(0, ⟨(35, 20), "A", [], []⟩), (1, ⟨(5, 5), "B", [], []⟩)],
        [(0, 30), (1, 3)], 30, 100⟩ : PlateTracker).update []).objects 0 = none ∧
    alistGet ((⟨2, [(0, ⟨(35, 20), "A", [], []⟩), (1, ⟨(5, 5), "B", [], []⟩)],
        [(0, 30), (1, 3)], 30, 100⟩ : PlateTracker).update []).disappeared 1 =
      some 4 := by
  refine ⟨by decide, ?_, ?_⟩
  · exact (((C5_empty_detections
      ⟨2, [(0, ⟨(35, 20), "A", [], []⟩), (1, ⟨(5, 5), "B", [], []⟩)],
        [(0, 30), (1, 3)], 30, 100⟩ (by decide)).2.2 0 30 (by decide)).1 (by decide)).1
  · exact (((C5_empty_detections
      ⟨2, [(0, ⟨(35, 20), "A", [], []⟩), (1, ⟨(5, 5), "B", [], []⟩)],
        [(0, 30), (1, 3)], 30, 100⟩ (by decide)).2.2 1 3 (by decide)).2 (by decide)).1

/-- C6: in every update cycle the greedy assignment is one-to-one: the
ghost list of committed (row, col) matches repeats no row and no column,
and every committed match has squared centroid distance within the squared
max_distance cutoff, i.e. no pair strictly beyond max_distance is ever
committed. -/
theorem C6_greedy_one_to_one (t : PlateTracker) (detections : List Detection) :
    ((t.updateFull detections).2.map Prod.fst).Nodup ∧
    ((t.updateFull detections).2.map Prod.snd).Nodup ∧
    ∀ rc ∈ (t.updateFull detections).2,
      pairDist (t.objects.map (fun p => p.2.centroid)) (inputCentroids detections)
          rc.1 rc.2 ≤ (t.max_distance : ℤ) ^ 2 := by
  by_cases hd : detections = []
  · subst hd
    simp [PlateTracker.updateFull]
  · by_cases ho : t.objects = []
    · have hsnd : (t.updateFull detections).2 = [] := by
        have hd' : detections.isEmpty = false := by
          cases detections with
          | nil => exact absurd rfl hd
          | cons a l => rfl
        unfold PlateTracker.updateFull
        rw [hd']
        simp [ho]
      rw [hsnd]
      refine ⟨List.nodup_nil, List.nodup_nil, ?_⟩
      intro rc hrc
      exact absurd hrc (List.not_mem_nil rc)
    · rw [updateFull_match t detections hd ho]
      obtain ⟨h1, h2, h3⟩ := matchBranch_loopInv t detections
      exact ⟨h2, h3, fun rc hrc => (h1 rc hrc).2.2⟩

/-- C6, witnessed at a concrete cycle committing the match (0, 0). -/
theorem C6_greedy_one_to_one_witness :
    (0, 0) ∈
      ((⟨1, [(0, ⟨(35, 20), "OLD1", [], []⟩)], [(0, 2)], 30, 100⟩ :
          PlateTracker).updateFull [⟨(30, 15, 10, 10), "NEW7", 1 / 2⟩]).2 ∧
    pairDist
        ((⟨1, [(0, ⟨(35, 20), "OLD1", [], []⟩)], [(0, 2)], 30, 100⟩ :
          PlateTracker).objects.map (fun p => p.2.centroid))
        (inputCentroids [⟨(30, 15, 10, 10), "NEW7", 1 / 2⟩]) 0 0 ≤
      (((⟨1, [(0, ⟨(35, 20), "OLD1", [], []⟩)], [(0, 2)], 30, 100⟩ :
          PlateTracker).max_distance : ℤ)) ^ 2 :=
  ⟨by decide,
    (C6_greedy_one_to_one
      ⟨1, [(0, ⟨(35, 20), "OLD1", [], []⟩)], [(0, 2)], 30, 100⟩
      [⟨(30, 15, 10, 10), "NEW7", 1 / 2⟩]).2.2 (0, 0) (by decide)⟩

/-- C8: for every update cycle and every committed match (row rc.1, column
rc.2), the matched entity's new state is exactly the commitEntity mutation
of its old state: centroid replaced by the detection centroid, that
centroid appended to the bounded track history, frames_missing reset to 0,
and the stored identifier overwritten with the detection text exactly when
that text is non-empty, kept otherwise (see commitEntity: the plate_text
field is the detection text if it is non-empty, else the old plate_text). -/
theorem C8_sticky_identifier (t : PlateTracker) (detections : List Detection)
    (hwf : t.WF) (rc : Nat × Nat)
    (hrc : rc ∈ (t.updateFull detections).2) :
    ∃ obj : TrackedEntity,
      alistGet t.objects ((t.objects.map Prod.fst).getD rc.1 0) = some obj ∧
      alistGet (t.update detections).objects
          ((t.objects.map Prod.fst).getD rc.1 0) =
        some (commitEntity (inputCentroids detections) (inputTexts detections)
          obj rc.2) ∧
      alistGet (t.update detections).disappeared
          ((t.objects.map Prod.fst).getD rc.1 0) = some 0 := by
  by_cases hd : detections = []
  · subst hd
    simp [PlateTracker.updateFull] at hrc
  · by_cases ho : t.objects = []
    · have hd' : detections.isEmpty = false := by
        cases detections with
        | nil => exact absurd rfl hd
        | cons a l => rfl
      unfold PlateTracker.updateFull at hrc
      rw [hd'] at hrc
      simp [ho] at hrc
    · have hrc' : rc ∈ (matchBranch t detections).committed := by
        rw [updateFull_match t detections hd ho] at hrc
        exact hrc
      have hupd1 : (t.update detections).objects = (matchBranch t detections).objects := by
        unfold PlateTracker.update
        rw [updateFull_match t detections hd ho]
      have hupd2 : (t.update detections).disappeared =
          (matchBranch t detections).disappeared := by
        unfold PlateTracker.update
        rw [updateFull_match t detections hd ho]
      obtain ⟨h1, h2, h3, h4, h5, h6⟩ := matchBranch_trackInv t detections hwf
      have hlt : rc.1 < (t.objects.map Prod.fst).length := h6 rc hrc'
      have hmem : (t.objects.map Prod.fst).getD rc.1 0 ∈ t.objects.map Prod.fst :=
        getD_mem_of_lt _ rc.1 hlt
      obtain ⟨obj, hobj⟩ :=
        Option.isSome_iff_exists.mp (alistGet_isSome_of_mem t.objects _ hmem)
      refine ⟨obj, hobj, ?_, ?_⟩
      · rw [hupd1, (h2 rc hrc').1, hobj]
        rfl
      · rw [hupd2]
        exact (h2 rc hrc').2

/-- C8, witnessed at a concrete cycle whose single detection has empty
text: the match is committed, frames_missing resets, and the stored
identifier remains the old one (commitEntity keeps plate_text on empty
detection text). -/
theorem C8_sticky_identifier_witness :
    ∃ obj : TrackedEntity,
      alistGet [(0, (⟨(35, 20), "OLD1", [], []⟩ : TrackedEntity))] 0 = some obj ∧
      alistGet ((⟨1, [(0, ⟨(35, 20), "OLD1", [], []⟩)], [(0, 2)], 30, 100⟩ :
          PlateTracker).update [⟨(30, 15, 10, 10), "", 1 / 2⟩]).objects 0 =
        some (commitEntity (inputCentroids [⟨(30, 15, 10, 10), "", 1 / 2⟩])
          (inputTexts [⟨(30, 15, 10, 10), "", 1 / 2⟩]) obj 0) ∧
      alistGet ((⟨1, [(0, ⟨(35, 20), "OLD1", [], []⟩)], [(0, 2)], 30, 100⟩ :
          PlateTracker).update [⟨(30, 15, 10, 10), "", 1 / 2⟩]).disappeared 0 =
        some 0 :=
  C8_sticky_identifier
    ⟨1, [(0, ⟨(35, 20), "OLD1", [], []⟩)], [(0, 2)], 30, 100⟩
    [⟨(30, 15, 10, 10), "", 1 / 2⟩] (by decide) (0, 0) (by decide)

/-- C2 amended: in a cycle with a non-empty detection list, every existing
entity whose id is not among the committed matches keeps both its entity
record and its frames_missing counter exactly as they were, and no entity
is removed (the key sets of both dictionaries are unchanged): the
non-empty branch of update neither increments frames_missing nor
deregisters. -/
theorem C2_amended_unmatched_untouched (t : PlateTracker)
    (detections : List Detection) (hwf : t.WF) (hne : detections ≠ [])
    (oid : Nat) (hmem : oid ∈ t.objects.map Prod.fst)
    (hnm : oid ∉ matchedIds t detections) :
    alistGet (t.update detections).objects oid = alistGet t.objects oid ∧
    alistGet (t.update detections).disappeared oid = alistGet t.disappeared oid ∧
    (t.update detections).objects.map Prod.fst = t.objects.map Prod.fst ∧
    (t.update detections).disappeared.map Prod.fst = t.disappeared.map Prod.fst := by
  have ho : t.objects ≠ [] := by
    intro h
    rw [h] at hmem
    simp at hmem
  have hupd1 : (t.update detections).objects = (matchBranch t detections).objects := by
    unfold PlateTracker.update
    rw [updateFull_match t detections hne ho]
  have hupd2 : (t.update detections).disappeared =
      (matchBranch t detections).disappeared := by
    unfold PlateTracker.update
    rw [updateFull_match t detections hne ho]
  have hmids : matchedIds t detections =
      (matchBranch t detections).committed.map
        (fun rc => (t.objects.map Prod.fst).getD rc.1 0) := by
    unfold matchedIds
    rw [updateFull_match t detections hne ho]
  obtain ⟨h1, h2, h3, h4, h5, h6⟩ := matchBranch_trackInv t detections hwf
  obtain ⟨r, hr, hget⟩ := List.mem_iff_getElem.mp hmem
  have hgetD : (t.objects.map Prod.fst).getD r 0 = oid := by
    rw [List.getD_eq_getElem _ 0 hr]
    exact hget
  have hnotused : r ∉ (matchBranch t detections).usedRows := by
    intro hused
    obtain ⟨rc, hrcmem, hrcfst⟩ := List.mem_map.mp ((h3 r).mp hused)
    apply hnm
    rw [hmids]
    have : (t.objects.map Prod.fst).getD rc.1 0 = oid := by
      rw [hrcfst, hgetD]
    exact this ▸ List.mem_map_of_mem _ hrcmem
  have hloc := h1 r hr hnotused
  rw [hgetD] at hloc
  exact ⟨hupd1 ▸ hloc.1, hupd2 ▸ hloc.2, hupd1 ▸ h4, hupd2 ▸ h5⟩

/-- C2 amended, witnessed at a concrete two-entity cycle where only entity
1 is matched: the unmatched entity 0 keeps frames_missing 7 unchanged. -/
theorem C2_amended_unmatched_untouched_witness :
    (0 ∉ matchedIds
      (⟨2, [(0, ⟨(10, 10), "A", [], []⟩), (1, ⟨(100, 10), "B", [], []⟩)],
        [(0, 7), (1, 0)], 30, 100⟩ : PlateTracker) [⟨(95, 5, 10, 10), "B2", 1 / 2⟩]) ∧
    alistGet ((⟨2, [(0, ⟨(10, 10), "A", [], []⟩), (1, ⟨(100, 10), "B", [], []⟩)],
        [(0, 7), (1, 0)], 30, 100⟩ : PlateTracker).update
        [⟨(95, 5, 10, 10), "B2", 1 / 2⟩]).disappeared 0 = some 7 := by
  refine ⟨by decide, ?_⟩
  have h := (C2_amended_unmatched_untouched
    ⟨2, [(0, ⟨(10, 10), "A", [], []⟩), (1, ⟨(100, 10), "B", [], []⟩)],
      [(0, 7), (1, 0)], 30, 100⟩ [⟨(95, 5, 10, 10), "B2", 1 / 2⟩]
    (by decide) (by decide) 0 (by decide) (by decide)).2.1
  rw [h]
  decide

end TollCore
